import Mathlib

/-!
Verification of the Rohde & Schwarz oscilloscope driver (`RS_Scope.py`).

The driver is glue code over an external SCPI/VISA transport: each method
issues a short sequence of instrument commands, polls a status register, and
writes results to disk.  The definitions below are a shallow embedding of the
driver's logic: the instrument and the filesystem are modelled as explicit
parameters (query maps `String → Except String String`, response streams
`Nat → Except String String` for repeated polls of one command, a list of
existing file names), the `sleep`-based elapsed time as a monotone function
of the poll iteration, and Python exceptions as `Except`.  Loops that the
source runs without a bound are given explicit fuel, `none` standing for a
run that has not terminated within the fuel.
-/

namespace RS

/-! ## Record-length clamp (`RS_Scope.py`, `acquire`, lines 120-133)

In the manual branch (`auto = False`) the requested record length is clamped:
`if length > 40E6: length = 40E6 elif length < 5E3: length = 5E3`. -/

/-- Manual record length actually sent with `ACQ:POIN`, from `acquire`
lines 125-132. -/
def set_record_length (len : ℚ) : ℚ :=
  if len > 40000000 then 40000000
  else if len < 5000 then 5000
  else len

/-! ## History settings and N-single count (`check_hist_values`, lines 265-275,
and `acquire` lines 138-143)

`check_hist_values` returns the two raw query strings; `acquire` parses the
second one (`int(max_segments)`) and lowers `N` to it when `N` exceeds it. -/

/-- `check_hist_values` (lines 272-275): the pair of raw responses to
`ACQ:POIN?` and `ACQ:COUN?`. -/
def check_hist_values (q : String → String) : String × String :=
  (q "ACQ:POIN?", q "ACQ:COUN?")

/-- The acquisition count sent with `ACQ:NSIN:COUN` in the multi-single branch
of `acquire` (lines 138-143): `if N > int(max_segments): N = int(max_segments)`.
`parse` stands for Python's `int(...)` conversion of the response string. -/
def nsingle_count (q : String → String) (parse : String → Nat) (N : Nat) : Nat :=
  let m := parse (check_hist_values q).2
  if N > m then m else N

/-! ## File de-duplication (`check_file_exists`, lines 237-263)

The filesystem is modelled as the list of file names that exist.  The source
loops: while the candidate `save_file + '.' + format` exists, the *evolving*
`save_file` gets `-(copy)` appended; the loop runs until a free name is found,
so it terminates as soon as the fuel exceeds the number of existing files
(each candidate is strictly longer than the previous one). -/

/-- `os.path.isfile` over the modelled filesystem. -/
def isfile (files : List String) (name : String) : Bool :=
  files.contains name

/-- The `while check:` loop of `check_file_exists` (lines 254-261), with fuel. -/
def check_file_exists_go (files : List String) (format : String) :
    Nat → String → Option String
  | 0, _ => none
  | fuel + 1, save_file =>
    if isfile files (save_file ++ "." ++ format) then
      check_file_exists_go files format fuel (save_file ++ "-(copy)")
    else
      some (save_file ++ "." ++ format)

/-- The base save path built in lines 250-253 from `self.path`, `self.folder`
and `self.fname`. -/
def save_base (path : String) (folder : Option String) (fname : String) : String :=
  match folder with
  | some f => path ++ f ++ fname
  | none => path ++ fname

/-- `check_file_exists` (lines 237-263).  Fuel `files.length + 1` is enough:
every loop iteration consumes a distinct existing file name. -/
def check_file_exists (files : List String) (path : String) (folder : Option String)
    (fname format : String) : Option String :=
  check_file_exists_go files format (files.length + 1) (save_base path folder fname)

/-! ## Calibration terminal report (`calibration`, lines 202-235)

After the polling loop leaves `RUN`, the source chooses a report with
`if self.query('CAL:SAT?') == 'OK': ... elif self.query_str('CAL:STAT?') == 'ERR':
... elif self.query_str('CAL:STAT?') == 'ABOR': ...` — note the first branch
queries the misspelled command `CAL:SAT?`, not `CAL:STAT?`.  A query map
`String → Except String String` models the instrument; `.error` is a raised
exception (caught by the method's `except`, which prints a generic message). -/

/-- What the tail of `calibration` reports once the status polling loop has
exited. -/
inductive CalReport where
  | success
  | calibError
  | aborted
  | silent
  | raised (msg : String)
deriving DecidableEq

/-- The report chosen by lines 225-230 of `calibration`, including the
exception path of the surrounding `try` (lines 232-235). -/
def calibration_report (q : String → Except String String) : CalReport :=
  match q "CAL:SAT?" with
  | .error e => .raised e
  | .ok v =>
    if v = "OK" then .success
    else
      match q "CAL:STAT?" with
      | .error e => .raised e
      | .ok v2 =>
        if v2 = "ERR" then .calibError
        else
          match q "CAL:STAT?" with
          | .error e => .raised e
          | .ok v3 => if v3 = "ABOR" then .aborted else .silent

/-- An instrument whose calibration status is terminally `OK`, and which
raises on the malformed query `CAL:SAT?` (the driver sets
`instrument_status_checking = True`, so an undefined header raises). -/
def cal_query_bug : String → Except String String :=
  fun s => if s = "CAL:STAT?" then .ok "OK" else .error "Undefined header"

/-- An instrument whose calibration status is terminally `OK`, and which
answers the malformed query `CAL:SAT?` with some harmless string. -/
def cal_query_silent : String → Except String String :=
  fun s => if s = "CAL:SAT?" then .ok "0" else .ok "OK"

/-! ## Construction (`__init__`, lines 29-88)

The `try` block (lines 61-73) covers only opening the underlying session,
setting the timeout attributes, and the verbose `SYST:NAME?` query; its
`except` prints `'Error initializing the instrument session:\n' + ...`.
The subsequent `self.clear_status()`, `self.reset()` and
`self.write_str('CHAN:AON')` (lines 75-78) run *outside* the handler.  The
external driver is modelled by one `Except` result per call the constructor
makes. -/

/-- The external driver calls made by `__init__`, each either succeeding or
raising. -/
structure InitDriver where
  openSession : Except String Unit
  queryName : Except String String
  clearStatus : Except String Unit
  resetInstr : Except String Unit
  writeChanAon : Except String Unit

/-- The `try`/`except` block of `__init__` (lines 61-73): returns the printed
error message when an exception was caught, `none` when the block ran clean.
Setting the timeout attributes cannot raise and is omitted. -/
def init_try_block (d : InitDriver) (verbose : Bool) : Option String :=
  match d.openSession with
  | .error e => some ("Error initializing the instrument session:\n" ++ e)
  | .ok _ =>
    if verbose then
      match d.queryName with
      | .error e => some ("Error initializing the instrument session:\n" ++ e)
      | .ok _ => none
    else none

/-- `__init__` after the mode dispatch: the guarded block, then the unguarded
`clear_status` / `reset` / `CHAN:AON` calls of lines 75-78, whose exceptions
propagate.  On success it returns the message reported by the guarded block,
if any. -/
def scope_init (d : InitDriver) (verbose : Bool) : Except String (Option String) :=
  let reported := init_try_block d verbose
  match d.clearStatus with
  | .error e => .error e
  | .ok _ =>
    match d.resetInstr with
    | .error e => .error e
    | .ok _ =>
      match d.writeChanAon with
      | .error e => .error e
      | .ok _ => .ok reported

/-- A driver whose session open fails; the follow-up commands on the dead
session fail as well. -/
def init_fail_driver : InitDriver where
  openSession := .error "VISA open failed"
  queryName := .error "session not open"
  clearStatus := .error "session not open"
  resetInstr := .error "session not open"
  writeChanAon := .error "session not open"

/-- A driver whose session open fails but whose follow-up commands happen to
succeed. -/
def init_open_fail_driver : InitDriver where
  openSession := .error "VISA open failed"
  queryName := .ok "RTB2004"
  clearStatus := .ok ()
  resetInstr := .ok ()
  writeChanAon := .ok ()

/-- A driver whose session open fails and whose `reset` call is the first
follow-up command to fail. -/
def init_reset_fail_driver : InitDriver where
  openSession := .error "VISA open failed"
  queryName := .ok "RTB2004"
  clearStatus := .ok ()
  resetInstr := .error "reset failed"
  writeChanAon := .ok ()

/-- A driver whose session open fails and whose `CHAN:AON` write is the first
follow-up command to fail. -/
def init_aon_fail_driver : InitDriver where
  openSession := .error "VISA open failed"
  queryName := .ok "RTB2004"
  clearStatus := .ok ()
  resetInstr := .ok ()
  writeChanAon := .error "write failed"

/-! ## Segmented-history save (`save_history`, lines 386-399)

`for i in range(int(self.query_str('ACQ:AVA?')))`: for each segment index
`i+1` the code brings that segment on screen (`CHAN..:HIST:CURR {i+1}`),
waits, *appends* `i+1` to the current `self.fname`, and calls
`save_channels()` once.  The model records, per iteration, the segment made
current and the filename used for that save. -/

/-- The loop body of `save_history`, recursing on the remaining iteration
count: `(segment made current, filename used for the save)` per iteration.
`fname` accumulates because the source mutates `self.fname` in place
(line 395). -/
def save_history_files : String → Nat → Nat → List (Nat × String)
  | _, _, 0 => []
  | fname, start, rem + 1 =>
    (start + 1, fname ++ toString (start + 1)) ::
      save_history_files (fname ++ toString (start + 1)) (start + 1) rem

/-- `save_history` with `K` available segments (the parsed `ACQ:AVA?`
response): the sequence of (current segment, save filename) pairs. -/
def save_history_run (fname : String) (K : Nat) : List (Nat × String) :=
  save_history_files fname 0 K

/-! ## Averaging (`average`, lines 168-200)

`start_time = time()`; after the setup writes and `RUN`, the loop polls
`ACQ:AVER:COMP?`; when the response is `'1'` it exits normally, otherwise it
breaks once `time() - start_time > self.acquisition_timeout`; either way
`STOP` is then written exactly once.  `resp n` is the instrument's n-th
response to the poll, `elapsed n` the elapsed whole seconds at the n-th
timeout check; since the loop sleeps 1 s per iteration, `n ≤ elapsed n`. -/

/-- Exit status of the `while self.query('ACQ:AVER:COMP?') != '1'` loop
(lines 186-192): `some true` = completed, `some false` = timed out,
`none` = fuel exhausted. -/
def aver_poll_exit (resp : Nat → String) (elapsed : Nat → Nat) (timeout : Nat) :
    Nat → Nat → Option Bool
  | _, 0 => none
  | n, fuel + 1 =>
    if resp n = "1" then some true
    else if elapsed n > timeout then some false
    else aver_poll_exit resp elapsed timeout (n + 1) fuel

/-- The sequence of commands `average` writes (lines 181-193): the setup
writes, `RUN`, and — once the polling loop has exited by completion or by
timeout — a single `STOP`.  `none` when the loop has not exited within the
fuel. -/
def average_trace (N : Nat) (resp : Nat → String) (elapsed : Nat → Nat)
    (timeout fuel : Nat) : Option (List String) :=
  match aver_poll_exit resp elapsed timeout 0 fuel with
  | none => none
  | some _ =>
    some ["ACQ:TYPE AVER", "ACQ:AVER:RES", "ACQ:NSIN:COUN 1",
      "ACQ:AVER:COUN " ++ toString N, "RUN", "STOP"]

/-! ## Channel data retrieval and CSV assembly
(`query_data` lines 304-331, `save_channels` lines 365-384,
`write_file` lines 436-465)

`query_data` returns the sample list, or the Python sentinel `False` when the
driver raised — modelled as `Option`, `none` being the sentinel.  In
`save_channels`, every configured channel contributes a `C_<n> (V)` header,
but `cols.append(data)` runs only under `if data:`, i.e. when the result is a
non-empty list (both `False` and `[]` are falsy).  `zip(time_data, *cols)`
truncates to the shortest sequence; `write_file` writes the header row and
then the zipped rows.  Sample values are modelled as `ℚ`. -/

/-- `query_data` (lines 304-331): the channel's samples, or the unavailable
sentinel (`False` in the source, `none` here) when the driver query raised. -/
def query_data (d : Nat → Except String (List ℚ)) (channel : Nat) : Option (List ℚ) :=
  match d channel with
  | .ok l => some l
  | .error _ => none

/-- The contribution of one channel to the columns of `save_channels`: its
data when the query result is truthy (`if data:` — not the `False` sentinel
and not the empty list), nothing otherwise. -/
def col_of_channel (d : Nat → Except String (List ℚ)) (ch : Nat) : Option (List ℚ) :=
  match query_data d ch with
  | some l => if l.isEmpty then none else some l
  | none => none

/-- The data columns accumulated by the loop of `save_channels`
(lines 374-380): one column per channel whose query produced a truthy
(non-sentinel, non-empty) result. -/
def chan_cols (d : Nat → Except String (List ℚ)) (channels : List Nat) :
    List (List ℚ) :=
  channels.filterMap (col_of_channel d)

/-- The CSV header row built by `save_channels` (lines 372-375): `time (s)`
plus one `C_<n> (V)` entry per configured channel, unconditionally. -/
def chan_headers (channels : List Nat) : List String :=
  "time (s)" :: channels.map fun ch => "C_" ++ toString ch ++ " (V)"

/-- Length of Python's `zip` over the given sequences: the shortest input
length (0 when there are no sequences). -/
def zip_len : List (List ℚ) → Nat
  | [] => 0
  | [l] => l.length
  | l :: rest => min l.length (zip_len rest)

/-- Python's `zip(...)` row-wise: row `i` holds the `i`-th element of each
sequence, and iteration stops with the shortest sequence. -/
def zip_rows (ls : List (List ℚ)) : List (List ℚ) :=
  (List.range (zip_len ls)).map fun i => ls.map fun l => l.getD i 0

/-- The data rows `save_channels` hands to `write_file` (lines 381-382):
`zip(time_data, *cols)`. -/
def save_channels_rows (time_data : List ℚ) (d : Nat → Except String (List ℚ))
    (channels : List Nat) : List (List ℚ) :=
  zip_rows (time_data :: chan_cols d channels)

/-- A driver raising on channel 2 and answering other channels. -/
def sc_fail_driver : Nat → Except String (List ℚ) :=
  fun ch => if ch = 2 then .error "simulated driver error" else .ok [5]

/-- A driver raising on channel 2 with three samples on the other channels. -/
def sc_mixed_driver : Nat → Except String (List ℚ) :=
  fun ch => if ch = 2 then .error "chan off" else .ok [1, 2, 3]

/-! ## The `acquire` method as a whole (lines 90-166)

The whole body of `acquire` sits in one `try`; the `except` prints the error
and returns `False`, and the fall-through returns `True`.  The external
driver is a structure of response functions; repeated polls of one command
are indexed by the poll iteration.  The computation lives in
`ExceptT String Option`: `none` models a run that has not terminated within
its fuel (the `ACQ:STAT?` poll has no timeout in the source), `some (.error e)`
a raised exception, `some (.ok x)` a normal return. -/

/-- Python's substring test `pat in s`, character-list based. -/
def chars_contain (pat : List Char) : List Char → Bool
  | [] => pat.isEmpty
  | c :: rest => pat.isPrefixOf (c :: rest) || chars_contain pat rest

/-- `pat in s` on strings. -/
def strContains (s pat : String) : Bool :=
  chars_contain pat.toList s.toList

/-- The external VISA/SCPI driver behaviour seen by `acquire`: each call
either answers or raises.  `opc`, `pollStat` and `pollAver` give the n-th
response to the repeated `*OPC?`, `ACQ:STAT?` and `ACQ:AVER:COMP?` queries;
`elapsed` is the elapsed time at the n-th timeout check; `parseInt` is
Python's `int(...)` on a response string (which can also raise);
`saveChannelsRun` is the outcome of a `save_channels()` call (file I/O and
instrument errors there are uncaught and reach `acquire`'s handler). -/
structure Driver where
  write : String → Except String Unit
  query : String → Except String String
  parseInt : String → Except String Nat
  opc : Nat → Except String Bool
  pollStat : Nat → Except String String
  pollAver : Nat → Except String String
  elapsed : Nat → Nat
  saveChannelsRun : Except String Unit

/-- Lift one driver call into the modelling monad. -/
def liftE {α : Type} (e : Except String α) : ExceptT String Option α :=
  ExceptT.mk (some e)

/-- `opc_check` (lines 292-302): poll `query_opc()` until true, giving up
with a warning once `opc_timeout` is exceeded; the query itself may raise. -/
def opc_check_loop (d : Driver) (opcT : Nat) : Nat → Nat → ExceptT String Option Unit
  | _, 0 => ExceptT.mk none
  | n, fuel + 1 =>
    ExceptT.mk (match d.opc n with
      | .error e => some (.error e)
      | .ok true => some (.ok ())
      | .ok false =>
        if d.elapsed n > opcT then some (.ok ())
        else (opc_check_loop d opcT (n + 1) fuel).run)

/-- The per-channel loop of `channel_select` (lines 288-290). -/
def channel_select_list (d : Driver) (opcT fuel : Nat) :
    List Nat → ExceptT String Option Unit
  | [] => pure ()
  | ch :: rest => do
    liftE (d.write ("CHAN" ++ toString ch ++ ":STAT ON"))
    opc_check_loop d opcT 0 fuel
    channel_select_list d opcT fuel rest

/-- `channel_select` (lines 277-290): all channels off, then the configured
ones on, with an OPC check after each. -/
def channel_select (d : Driver) (opcT fuel : Nat) (channels : List Nat) :
    ExceptT String Option Unit := do
  liftE (d.write "CHAN:AOFF")
  channel_select_list d opcT fuel channels

/-- The unbounded `while self.query("ACQ:STAT?") != 'COMP'` poll of `acquire`
(lines 151-154). -/
def acq_stat_loop (d : Driver) : Nat → Nat → ExceptT String Option Unit
  | _, 0 => ExceptT.mk none
  | n, fuel + 1 =>
    ExceptT.mk (match d.pollStat n with
      | .error e => some (.error e)
      | .ok s => if s = "COMP" then some (.ok ()) else (acq_stat_loop d (n + 1) fuel).run)

/-- The `ACQ:AVER:COMP?` poll of `average` (lines 186-192), with the timeout
break, in the driver world. -/
def aver_loop_m (d : Driver) (acqT : Nat) : Nat → Nat → ExceptT String Option Unit
  | _, 0 => ExceptT.mk none
  | n, fuel + 1 =>
    ExceptT.mk (match d.pollAver n with
      | .error e => some (.error e)
      | .ok s =>
        if s = "1" then some (.ok ())
        else if d.elapsed n > acqT then some (.ok ())
        else (aver_loop_m d acqT (n + 1) fuel).run)

/-- The guarded body of `average` (lines 181-193): setup writes, `RUN`, the
poll, then `STOP`. -/
def average_body_m (d : Driver) (N acqT fuel : Nat) : ExceptT String Option Unit := do
  liftE (d.write "ACQ:TYPE AVER")
  liftE (d.write "ACQ:AVER:RES")
  liftE (d.write "ACQ:NSIN:COUN 1")
  liftE (d.write ("ACQ:AVER:COUN " ++ toString N))
  liftE (d.write "RUN")
  aver_loop_m d acqT 0 fuel
  liftE (d.write "STOP")

/-- `average` (lines 168-200): its own `try`/`except` turns a raised
exception into a printed message and `False`, a clean run into `True`. -/
def average_m (d : Driver) (N acqT fuel : Nat) : Option Bool :=
  match (average_body_m d N acqT fuel).run with
  | none => none
  | some (.ok _) => some true
  | some (.error _) => some false

/-- `check_hist_values` (lines 265-275) in the driver world: both queries may
raise. -/
def check_hist_values_m (d : Driver) : ExceptT String Option (String × String) := do
  let rl ← liftE (d.query "ACQ:POIN?")
  let ms ← liftE (d.query "ACQ:COUN?")
  pure (rl, ms)

/-- The guarded body of `acquire` (lines 117-160): channel selection,
segmentation, record length, then the mode dispatch — `average` (whose
boolean result the source discards) for `AVER` modes, otherwise the
count clamp, `RUNS` and the completion poll — and finally the deferred-save
routing.  `save_history` (the `hist` route) has its own `try`/`except`
(lines 391-399), so its failures never reach `acquire`'s handler. -/
def acquire_body (d : Driver) (mode : String) (N : Nat) (auto : Bool) (len : ℚ)
    (channels : List Nat) (save : Bool) (opcT acqT fuel : Nat) :
    ExceptT String Option Unit := do
  channel_select d opcT fuel channels
  liftE (d.write "ACQ:SEGM:STAT ON")
  if auto then
    liftE (d.write "ACQ:POIN:AUT ON")
  else do
    liftE (d.write "ACQ:POIN:AUT OFF")
    liftE (d.write "ACQ:MEM DMEM")
    liftE (d.write ("ACQ:POIN " ++ toString (set_record_length len)))
  if strContains mode "AVER" then
    match average_m d N acqT fuel with
    | none => ExceptT.mk none
    | some _ => pure ()
  else do
    let hv ← check_hist_values_m d
    let m ← liftE (d.parseInt hv.2)
    let n := if N > m then m else N
    liftE (d.write "ACQ:TYPE REFR")
    if strContains mode "NSING" then
      liftE (d.write ("ACQ:NSIN:COUN " ++ toString n))
    else
      liftE (d.write "ACQ:NSIN:COUN 1")
    liftE (d.write "RUNS")
    acq_stat_loop d 0 fuel
  if save then
    if !strContains mode "AVER" && strContains mode "NSING" then
      pure ()
    else
      liftE d.saveChannelsRun
  else
    pure ()

/-- `acquire` (lines 90-166): the body under `try`; the `except` prints the
error and returns `False`, the fall-through returns `True`.  `none` = the
run did not terminate within the fuel. -/
def acquire (d : Driver) (mode : String) (N : Nat) (auto : Bool) (len : ℚ)
    (channels : List Nat) (save : Bool) (opcT acqT fuel : Nat) : Option Bool :=
  match (acquire_body d mode N auto len channels save opcT acqT fuel).run with
  | none => none
  | some (.ok _) => some true
  | some (.error _) => some false

/-- A driver on which every call succeeds at once. -/
def acq_ok_driver : Driver where
  write := fun _ => .ok ()
  query := fun _ => .ok "8"
  parseInt := fun _ => .ok 8
  opc := fun _ => .ok true
  pollStat := fun _ => .ok "COMP"
  pollAver := fun _ => .ok "1"
  elapsed := fun n => n
  saveChannelsRun := .ok ()

/-- A driver whose writes raise. -/
def acq_fail_driver : Driver where
  write := fun _ => .error "io failure"
  query := fun _ => .ok "8"
  parseInt := fun _ => .ok 8
  opc := fun _ => .ok true
  pollStat := fun _ => .ok "COMP"
  pollAver := fun _ => .ok "1"
  elapsed := fun n => n
  saveChannelsRun := .ok ()

end RS

namespace RS

/-! ## Theorems -/

/-- Helper: a list containing two distinct elements has length at least 2. -/
theorem two_le_length_of_mem_ne {α : Type} {a b : α} {l : List α}
    (ha : a ∈ l) (hb : b ∈ l) (hne : a ≠ b) : 2 ≤ l.length := by
  induction l with
  | nil => cases ha
  | cons x xs ih =>
    rcases List.mem_cons.mp ha with rfl | ha'
    · rcases List.mem_cons.mp hb with rfl | hb'
      · exact absurd rfl hne
      · have := List.length_pos_of_mem hb'
        simp [List.length_cons]
        omega
    · have := List.length_pos_of_mem ha'
      simp [List.length_cons]
      omega

/-- Helper: one colliding step of the `check_file_exists` loop. -/
theorem check_file_exists_go_mem (files : List String) (format : String)
    (fuel : Nat) (s : String) (h : (s ++ "." ++ format) ∈ files) :
    check_file_exists_go files format (fuel + 1) s =
      check_file_exists_go files format fuel (s ++ "-(copy)") := by
  simp [check_file_exists_go, isfile, h]

/-- Helper: the terminating step of the `check_file_exists` loop. -/
theorem check_file_exists_go_nomem (files : List String) (format : String)
    (fuel : Nat) (s : String) (h : (s ++ "." ++ format) ∉ files) :
    check_file_exists_go files format (fuel + 1) s = some (s ++ "." ++ format) := by
  simp [check_file_exists_go, isfile, h]

/-- C6: for every requested manual record length `L`, the length sent to the
instrument is `clamp(L, 5000, 40000000)`: values below 5×10³ are raised to
5×10³, values above 4×10⁷ are lowered to 4×10⁷, values inside the range pass
through unchanged. -/
theorem record_length_clamp : ∀ L : ℚ, set_record_length L = max 5000 (min L 40000000) := by
  intro L
  unfold set_record_length
  split_ifs with h1 h2
  · rw [min_eq_right h1.le, max_eq_right]
    norm_num
  · rw [min_eq_left (by linarith), max_eq_left h2.le]
  · rw [min_eq_left (not_lt.mp h1), max_eq_right (not_lt.mp h2)]

/-- C7: for every requested multi-single count `N` and every instrument
response, the acquisition count sent with `ACQ:NSIN:COUN` equals
`min N M`, where `M` is the parsed value of the run-time query `ACQ:COUN?`
(the second component returned by `check_hist_values`). -/
theorem nsingle_count_min : ∀ (q : String → String) (parse : String → Nat) (N : Nat),
    nsingle_count q parse N = min N (parse (q "ACQ:COUN?")) := by
  intro q parse N
  simp only [nsingle_count, check_hist_values]
  split_ifs with h
  · omega
  · omega

/-- C1 counterexample: with both `f.csv` and `f-(copy).csv` existing, a third
save with base name `f` resolves to `f-(copy)-(copy).csv` — not, as the claim
states, to the same `f-(copy).csv` path again. -/
theorem check_file_exists_copy_cex :
    check_file_exists ["f.csv", "f-(copy).csv"] "" none "f" "csv" =
      some "f-(copy)-(copy).csv" ∧
    check_file_exists ["f.csv", "f-(copy).csv"] "" none "f" "csv" ≠
      some "f-(copy).csv" := by
  constructor
  · decide
  · decide

/-- C1 (amended): the first colliding save is written to `<name>-(copy).<ext>`;
but when both `<name>.<ext>` and `<name>-(copy).<ext>` exist, a third save
resolves to `<name>-(copy)-(copy).<ext>` — the `-(copy)` marker IS appended
again on every collision, so the first copy is not overwritten. -/
theorem check_file_exists_copy_marker (files : List String) (path : String)
    (folder : Option String) (fname format : String) :
    ((save_base path folder fname ++ "." ++ format) ∈ files →
      ((save_base path folder fname ++ "-(copy)") ++ "." ++ format) ∉ files →
      check_file_exists files path folder fname format =
        some ((save_base path folder fname ++ "-(copy)") ++ "." ++ format)) ∧
    ((save_base path folder fname ++ "." ++ format) ∈ files →
      ((save_base path folder fname ++ "-(copy)") ++ "." ++ format) ∈ files →
      (((save_base path folder fname ++ "-(copy)") ++ "-(copy)") ++ "." ++ format) ∉ files →
      check_file_exists files path folder fname format =
        some (((save_base path folder fname ++ "-(copy)") ++ "-(copy)") ++ "." ++ format)) := by
  constructor
  · intro h1 h2
    obtain ⟨k, hk⟩ : ∃ k, files.length + 1 = k + 2 :=
      ⟨files.length - 1, by have := List.length_pos_of_mem h1; omega⟩
    rw [check_file_exists, hk, check_file_exists_go_mem _ _ _ _ h1,
      check_file_exists_go_nomem _ _ _ _ h2]
  · intro h1 h2 h3
    have hne : (save_base path folder fname ++ "." ++ format) ≠
        ((save_base path folder fname ++ "-(copy)") ++ "." ++ format) := by
      intro he
      have := congrArg String.length he
      simp only [String.length_append] at this
      have h7 : ("-(copy)" : String).length = 7 := by decide
      omega
    obtain ⟨k, hk⟩ : ∃ k, files.length + 1 = k + 3 :=
      ⟨files.length - 2, by have := two_le_length_of_mem_ne h1 h2 hne; omega⟩
    rw [check_file_exists, hk, check_file_exists_go_mem _ _ _ _ h1,
      check_file_exists_go_mem _ _ _ _ h2, check_file_exists_go_nomem _ _ _ _ h3]

/-- C1 witness: both branches of the amended statement hold at concrete
filesystems. -/
theorem check_file_exists_copy_marker_wit :
    check_file_exists ["f.csv"] "" none "f" "csv" = some "f-(copy).csv" ∧
    check_file_exists ["f.csv", "f-(copy).csv"] "" none "f" "csv" =
      some "f-(copy)-(copy).csv" := by
  constructor
  · exact (check_file_exists_copy_marker ["f.csv"] "" none "f" "csv").1
      (by decide) (by decide)
  · exact (check_file_exists_copy_marker ["f.csv", "f-(copy).csv"] "" none "f" "csv").2
      (by decide) (by decide) (by decide)

/-- C2: the claim fails on the code because the success branch queries the
misspelled command `CAL:SAT?` (line 225) instead of `CAL:STAT?`.  With a
terminal calibration status of `OK` (not `RUN`, so the polling loop has
exited), the strict instrument raises on the malformed query and the method
only prints its generic exception message; a lenient instrument answering the
malformed query with a non-`OK` string makes all three branches fail, so
nothing at all is reported.  In neither case is success reported. -/
theorem calibration_sat_typo :
    cal_query_bug "CAL:STAT?" = .ok "OK" ∧ ("OK" : String) ≠ "RUN" ∧
    calibration_report cal_query_bug = .raised "Undefined header" ∧
    calibration_report cal_query_bug ≠ .success ∧
    cal_query_silent "CAL:STAT?" = .ok "OK" ∧
    calibration_report cal_query_silent = .silent := by
  refine ⟨rfl, by decide, by decide, by decide, rfl, by decide⟩

/-- C3 counterexample: a failure while opening the session is caught, but
construction then calls `clear_status()` on the dead session *outside* the
handler, and that exception propagates to the caller — construction fails
rather than returning a partially constructed object. -/
theorem scope_init_propagates_cex :
    init_fail_driver.openSession = Except.error "VISA open failed" ∧
    scope_init init_fail_driver true = Except.error "session not open" :=
  ⟨rfl, rfl⟩

/-- C3 (amended): a failure raised while opening the driver session itself is
caught and reported as a message, and when the unguarded follow-up commands
(`clear_status`, `reset`, `CHAN:AON`, lines 75-78) succeed, construction
returns the partially constructed object with the open error only reported;
but those follow-up commands run outside the handler, so an exception raised
by any of them propagates to the caller. -/
theorem scope_init_amended (d : InitDriver) (verbose : Bool) (e : String)
    (h : d.openSession = Except.error e) :
    (d.clearStatus = .ok () → d.resetInstr = .ok () → d.writeChanAon = .ok () →
      scope_init d verbose =
        .ok (some ("Error initializing the instrument session:\n" ++ e))) ∧
    (∀ e2, d.clearStatus = Except.error e2 →
      scope_init d verbose = Except.error e2) ∧
    (∀ e2, d.clearStatus = .ok () → d.resetInstr = Except.error e2 →
      scope_init d verbose = Except.error e2) ∧
    (∀ e2, d.clearStatus = .ok () → d.resetInstr = .ok () →
      d.writeChanAon = Except.error e2 →
      scope_init d verbose = Except.error e2) := by
  refine ⟨?_, ?_, ?_, ?_⟩
  · intro h1 h2 h3
    simp [scope_init, init_try_block, h, h1, h2, h3]
  · intro e2 h1
    simp [scope_init, h1]
  · intro e2 h1 h2
    simp [scope_init, h1, h2]
  · intro e2 h1 h2 h3
    simp [scope_init, h1, h2, h3]

/-- C3 witness: all four branches of the amended statement at concrete
drivers — the reported-only case, and propagation from each of the three
unguarded follow-up commands. -/
theorem scope_init_amended_wit :
    scope_init init_open_fail_driver true =
      Except.ok (some ("Error initializing the instrument session:\n" ++
        "VISA open failed")) ∧
    scope_init init_fail_driver false = Except.error "session not open" ∧
    scope_init init_reset_fail_driver true = Except.error "reset failed" ∧
    scope_init init_aon_fail_driver true = Except.error "write failed" :=
  ⟨(scope_init_amended init_open_fail_driver true "VISA open failed" rfl).1 rfl rfl rfl,
   (scope_init_amended init_fail_driver false "VISA open failed" rfl).2.1
     "session not open" rfl,
   (scope_init_amended init_reset_fail_driver true "VISA open failed" rfl).2.2.1
     "reset failed" rfl rfl,
   (scope_init_amended init_aon_fail_driver true "VISA open failed" rfl).2.2.2
     "write failed" rfl rfl rfl⟩

/-- Helper: `save_history_files` produces one entry per remaining iteration. -/
theorem save_history_files_length :
    ∀ (rem : Nat) (fname : String) (start : Nat),
      (save_history_files fname start rem).length = rem := by
  intro rem
  induction rem with
  | zero => intro fname start; rfl
  | succ rem ih =>
    intro fname start
    simp [save_history_files, ih]

/-- Helper: the `j`-th iteration of `save_history_files` makes segment
`start + j + 1` current and saves to a filename ending in that index. -/
theorem save_history_files_get :
    ∀ (rem start : Nat) (fname : String) (j : Nat), j < rem →
      ∃ nm, (save_history_files fname start rem).get? j = some (start + j + 1, nm) ∧
        ∃ p, nm = p ++ toString (start + j + 1) := by
  intro rem
  induction rem with
  | zero => intro start fname j hj; omega
  | succ rem ih =>
    intro start fname j hj
    cases j with
    | zero =>
      exact ⟨fname ++ toString (start + 1), rfl, fname, rfl⟩
    | succ j =>
      obtain ⟨nm, h1, p, h2⟩ :=
        ih (start + 1) (fname ++ toString (start + 1)) j (by omega)
      refine ⟨nm, ?_, p, ?_⟩
      · simpa [save_history_files, show start + 1 + j + 1 = start + (j + 1) + 1 by omega]
          using h1
      · simpa [show start + 1 + j + 1 = start + (j + 1) + 1 by omega] using h2

/-- C4: with `K` available segments, `save_history` performs exactly `K`
channel saves, one per segment index `i` in `1..K` in increasing order, and
the filename used while segment `i` is current ends in the segment index `i`
(it is the previous filename with `i` appended). -/
theorem save_history_per_segment (fname : String) (K : Nat) :
    (save_history_run fname K).length = K ∧
    ∀ j, j < K → ∃ nm, (save_history_run fname K).get? j = some (j + 1, nm) ∧
      ∃ p, nm = p ++ toString (j + 1) := by
  constructor
  · exact save_history_files_length K fname 0
  · intro j hj
    simpa using save_history_files_get K 0 fname j hj

/-- C4 witness: two segments starting from base name `file`: the second save
happens with segment 2 current, under a filename ending in `2`. -/
theorem save_history_per_segment_wit :
    (save_history_run "file" 2).length = 2 ∧
    ∃ nm, (save_history_run "file" 2).get? 1 = some (2, nm) ∧
      ∃ p, nm = p ++ toString 2 :=
  ⟨(save_history_per_segment "file" 2).1,
   (save_history_per_segment "file" 2).2 1 (by decide)⟩

/-- Helper: the setup command of `average` carrying the average count is never
the `STOP` command. -/
theorem aver_coun_ne_stop (N : Nat) : ("ACQ:AVER:COUN " ++ toString N) ≠ "STOP" := by
  intro h
  have hl := congrArg String.length h
  rw [String.length_append] at hl
  have h14 : ("ACQ:AVER:COUN " : String).length = 14 := by decide
  have h4 : ("STOP" : String).length = 4 := by decide
  omega

/-- Helper: the polling loop of `average` exits within the fuel
`timeout + 2` because the elapsed time grows at least one second per
iteration (the loop sleeps 1 s each round). -/
theorem aver_poll_exit_total (resp : Nat → String) (elapsed : Nat → Nat)
    (timeout : Nat) (h : ∀ m, m ≤ elapsed m) :
    ∀ (fuel n : Nat), timeout + 2 ≤ n + fuel → n ≤ timeout + 1 →
      (aver_poll_exit resp elapsed timeout n fuel).isSome := by
  intro fuel
  induction fuel with
  | zero => intro n h1 h2; omega
  | succ fuel ih =>
    intro n h1 h2
    simp only [aver_poll_exit]
    split_ifs with hresp hel
    · rfl
    · rfl
    · have hn : n ≤ timeout := le_trans (h n) (not_lt.mp hel)
      exact ih (n + 1) (by omega) (by omega)

/-- Helper: if the completion query never answers `'1'`, the polling loop of
`average` can only exit through the timeout break. -/
theorem aver_poll_exit_not_complete (resp : Nat → String) (elapsed : Nat → Nat)
    (timeout : Nat) (h : ∀ m, resp m ≠ "1") :
    ∀ (fuel n : Nat), aver_poll_exit resp elapsed timeout n fuel ≠ some true := by
  intro fuel
  induction fuel with
  | zero => intro n hc; simp [aver_poll_exit] at hc
  | succ fuel ih =>
    intro n hc
    simp only [aver_poll_exit, h n, if_false] at hc
    by_cases hel : elapsed n > timeout
    · rw [if_pos hel] at hc
      cases hc
    · rw [if_neg hel] at hc
      exact ih (n + 1) hc

/-- C5: when the elapsed time grows at least one second per poll iteration
(as the 1 s sleep guarantees), the wait loop of `average` exits within the
configured acquisition timeout, the command trace contains the explicit
`STOP` command exactly once — on the normal completion path and on the
timeout path alike — and if the `ACQ:AVER:COMP?` query never asserts `'1'`,
the loop's exit is the timeout break. -/
theorem average_stop_once (N : Nat) (resp : Nat → String) (elapsed : Nat → Nat)
    (timeout : Nat) (h : ∀ n, n ≤ elapsed n) :
    (∃ cmds, average_trace N resp elapsed timeout (timeout + 2) = some cmds ∧
      cmds.count "STOP" = 1) ∧
    ((∀ n, resp n ≠ "1") →
      aver_poll_exit resp elapsed timeout 0 (timeout + 2) = some false) := by
  have htot := aver_poll_exit_total resp elapsed timeout h (timeout + 2) 0
    (by omega) (by omega)
  obtain ⟨b, hb⟩ := Option.isSome_iff_exists.mp htot
  constructor
  · refine ⟨["ACQ:TYPE AVER", "ACQ:AVER:RES", "ACQ:NSIN:COUN 1",
      "ACQ:AVER:COUN " ++ toString N, "RUN", "STOP"],
      by simp [average_trace, hb], ?_⟩
    have c1 : (("ACQ:TYPE AVER" : String) == "STOP") = false := by decide
    have c2 : (("ACQ:AVER:RES" : String) == "STOP") = false := by decide
    have c3 : (("ACQ:NSIN:COUN 1" : String) == "STOP") = false := by decide
    have c4 : (("ACQ:AVER:COUN " ++ toString N) == "STOP") = false := by
      rw [beq_eq_false_iff_ne]
      exact aver_coun_ne_stop N
    have c5 : (("RUN" : String) == "STOP") = false := by decide
    have c6 : (("STOP" : String) == "STOP") = true := by decide
    simp [List.count_cons, List.count_nil, c1, c2, c3, c4, c5, c6]
  · intro hnever
    cases b with
    | true => exact absurd hb (aver_poll_exit_not_complete resp elapsed timeout
        hnever (timeout + 2) 0)
    | false => exact hb

/-- Helper: every sequence bounds the zip length from below. -/
theorem zip_len_le (ls : List (List ℚ)) : ∀ l ∈ ls, zip_len ls ≤ l.length := by
  induction ls with
  | nil => intro l hl; cases hl
  | cons hd tl ih =>
    intro l hl
    cases tl with
    | nil =>
      rcases List.mem_cons.mp hl with rfl | h
      · simp [zip_len]
      · cases h
    | cons t ts =>
      rcases List.mem_cons.mp hl with rfl | h
      · exact min_le_left _ _
      · exact le_trans (min_le_right _ _) (ih l h)

/-- Helper: the zip length is attained by some sequence. -/
theorem zip_len_attained (ls : List (List ℚ)) (h : ls ≠ []) :
    ∃ l ∈ ls, zip_len ls = l.length := by
  induction ls with
  | nil => exact absurd rfl h
  | cons hd tl ih =>
    cases tl with
    | nil => exact ⟨hd, List.mem_cons_self _ _, rfl⟩
    | cons t ts =>
      rcases le_total hd.length (zip_len (t :: ts)) with hle | hle
      · exact ⟨hd, List.mem_cons_self _ _, min_eq_left hle⟩
      · obtain ⟨l, hl, he⟩ := ih (by simp)
        exact ⟨l, List.mem_cons_of_mem _ hl, (min_eq_right hle).trans he⟩

/-- Helper: a member mapped to `none` makes `filterMap` strictly shorter. -/
theorem length_filterMap_lt_of_none {α β : Type} (f : α → Option β) (l : List α)
    (a : α) (ha : a ∈ l) (hf : f a = none) :
    (l.filterMap f).length < l.length := by
  obtain ⟨s, t, rfl⟩ := List.append_of_mem ha
  rw [List.filterMap_append]
  have h1 := List.length_filterMap_le f s
  have h2 := List.length_filterMap_le f t
  have hc : (List.filterMap f (a :: t)).length = (List.filterMap f t).length := by
    simp [List.filterMap_cons, hf]
  simp only [List.length_append, hc]
  simp only [List.length_append, List.length_cons]
  omega

/-- C8: a channel on which the driver's data query raises yields the
unavailable sentinel from `query_data`, and `save_channels`' retrieval loop
continues past it: the columns of the full channel list are exactly the
columns of the channels before plus those after the failing one, and every
later channel with a successful non-empty query still contributes its data. -/
theorem query_data_unavailable_continues (d : Nat → Except String (List ℚ))
    (pre post : List Nat) (ch : Nat) (e : String) (h : d ch = Except.error e) :
    query_data d ch = none ∧
    chan_cols d (pre ++ ch :: post) = chan_cols d pre ++ chan_cols d post ∧
    ∀ ch2 l, ch2 ∈ post → d ch2 = Except.ok l → l.isEmpty = false →
      l ∈ chan_cols d (pre ++ ch :: post) := by
  refine ⟨by simp [query_data, h], ?_, ?_⟩
  · simp [chan_cols, List.filterMap_append, List.filterMap_cons,
      col_of_channel, query_data, h]
  · intro ch2 l hmem hok hne
    refine List.mem_filterMap.mpr ⟨ch2, ?_, ?_⟩
    · simp [hmem]
    · simp [col_of_channel, query_data, hok, hne]

/-- C8 witness: channel 2 raises; channels 1 and 3 still contribute. -/
theorem query_data_unavailable_continues_wit :
    query_data sc_fail_driver 2 = none ∧
    ([(5 : ℚ)] ∈ chan_cols sc_fail_driver ([1] ++ 2 :: [3])) := by
  have t := query_data_unavailable_continues sc_fail_driver [1] [3] 2
    "simulated driver error" rfl
  exact ⟨t.1, t.2.2 3 [5] (by decide) rfl rfl⟩

/-- C10: the header row names every configured channel regardless of
failures; each written row has one field per *retrieved* column plus time, so
when at least one configured channel is unavailable the rows are strictly
shorter than the header row; and the number of rows is the minimum of the
lengths of the time axis and the retrieved columns (`zip` truncation). -/
theorem save_channels_header_row_mismatch (time_data : List ℚ)
    (d : Nat → Except String (List ℚ)) (channels : List Nat) :
    (chan_headers channels).length = channels.length + 1 ∧
    (∀ row ∈ save_channels_rows time_data d channels,
      row.length = (chan_cols d channels).length + 1) ∧
    ((∃ ch ∈ channels, ∃ e, d ch = Except.error e) →
      ∀ row ∈ save_channels_rows time_data d channels,
        row.length < (chan_headers channels).length) ∧
    (save_channels_rows time_data d channels).length ≤ time_data.length ∧
    (∀ c ∈ chan_cols d channels,
      (save_channels_rows time_data d channels).length ≤ c.length) ∧
    ((save_channels_rows time_data d channels).length = time_data.length ∨
      ∃ c ∈ chan_cols d channels,
        (save_channels_rows time_data d channels).length = c.length) := by
  have hrow : ∀ row ∈ save_channels_rows time_data d channels,
      row.length = (chan_cols d channels).length + 1 := by
    intro row hrow
    simp only [save_channels_rows, zip_rows, List.mem_map] at hrow
    obtain ⟨i, _, rfl⟩ := hrow
    simp
  have hlen : (save_channels_rows time_data d channels).length =
      zip_len (time_data :: chan_cols d channels) := by
    simp [save_channels_rows, zip_rows]
  refine ⟨by simp [chan_headers], hrow, ?_, ?_, ?_, ?_⟩
  · rintro ⟨ch, hch, e, he⟩ row hr
    have hnone : col_of_channel d ch = none := by
      simp [col_of_channel, query_data, he]
    have hlt := length_filterMap_lt_of_none (col_of_channel d) channels ch hch hnone
    rw [hrow row hr, chan_headers]
    simp only [List.length_cons, List.length_map]
    have : (chan_cols d channels).length < channels.length := hlt
    omega
  · rw [hlen]
    exact zip_len_le _ _ (List.mem_cons_self _ _)
  · intro c hc
    rw [hlen]
    exact zip_len_le _ _ (List.mem_cons_of_mem _ hc)
  · obtain ⟨l, hl, he⟩ := zip_len_attained (time_data :: chan_cols d channels) (by simp)
    rcases List.mem_cons.mp hl with rfl | hl'
    · exact Or.inl (hlen.trans he)
    · exact Or.inr ⟨l, hl', hlen.trans he⟩

/-- C10 witness: channels `[1,2,3]` with channel 2 unavailable and a 2-sample
time axis: the header has 4 entries while the concrete first data row
`[0, 1, 1]` has only 3 fields. -/
theorem save_channels_header_row_mismatch_wit :
    (chan_headers [1, 2, 3]).length = 3 + 1 ∧
    ([(0 : ℚ), 1, 1]).length = (chan_cols sc_mixed_driver [1, 2, 3]).length + 1 ∧
    ([(0 : ℚ), 1, 1]).length < (chan_headers [1, 2, 3]).length := by
  have t := save_channels_header_row_mismatch [0, 1] sc_mixed_driver [1, 2, 3]
  have hmem : ([(0 : ℚ), 1, 1]) ∈ save_channels_rows [0, 1] sc_mixed_driver [1, 2, 3] := by
    decide
  exact ⟨t.1, t.2.1 _ hmem, t.2.2.1 ⟨2, by decide, "chan off", rfl⟩ _ hmem⟩

/-- C9: for every input and every driver behaviour, whenever `acquire`
terminates it returns a boolean and never lets an exception escape: a clean
body yields `true`, a body that raised — whatever the exception — is caught
at `acquire`'s boundary and yields `false` after reporting; the only
non-boolean outcome is non-termination of the unbounded `ACQ:STAT?` poll
(modelled as fuel exhaustion), which raises nothing either. -/
theorem acquire_bool_boundary (d : Driver) (mode : String) (N : Nat) (auto : Bool)
    (len : ℚ) (channels : List Nat) (save : Bool) (opcT acqT fuel : Nat) :
    ((acquire_body d mode N auto len channels save opcT acqT fuel).run =
        some (Except.ok ()) →
      acquire d mode N auto len channels save opcT acqT fuel = some true) ∧
    (∀ e, (acquire_body d mode N auto len channels save opcT acqT fuel).run =
        some (Except.error e) →
      acquire d mode N auto len channels save opcT acqT fuel = some false) ∧
    ((acquire_body d mode N auto len channels save opcT acqT fuel).run = none →
      acquire d mode N auto len channels save opcT acqT fuel = none) := by
  refine ⟨?_, ?_, ?_⟩
  · intro h
    simp [acquire, h]
  · intro e h
    simp [acquire, h]
  · intro h
    simp [acquire, h]

/-- C9 witness: a fully succeeding driver makes `acquire` return `true`; a
driver whose first write raises makes it return `false` — the exception is
absorbed at the boundary. -/
theorem acquire_bool_boundary_wit :
    acquire acq_ok_driver "SINGle" 1 true 5000000 [1] false 15 10 3 = some true ∧
    acquire acq_fail_driver "SINGle" 1 true 5000000 [1] false 15 10 3 = some false :=
  ⟨(acquire_bool_boundary acq_ok_driver "SINGle" 1 true 5000000 [1] false 15 10 3).1
      rfl,
   (acquire_bool_boundary acq_fail_driver "SINGle" 1 true 5000000 [1] false 15 10 3).2.1
      "io failure" rfl⟩

/-- C5 witness: a completion query that never asserts, with real time,
timeout 3: the trace exists with one `STOP`, and the loop exits through the
timeout break. -/
theorem average_stop_once_wit :
    (∃ cmds, average_trace 4 (fun _ => "0") (fun n => n) 3 5 = some cmds ∧
      cmds.count "STOP" = 1) ∧
    ((∀ n, (fun _ : Nat => ("0" : String)) n ≠ "1") →
      aver_poll_exit (fun _ => "0") (fun n => n) 3 0 5 = some false) :=
  average_stop_once 4 (fun _ => "0") (fun n => n) 3 (fun n => le_refl n)

end RS
